import Mathlib

/-!
Shallow embedding of the outbound HTTP request pipeline of this repository
(`api_handler.py`: config validation, retrying transport configuration,
streaming body assembly, content-type-driven decoding, envelope assembly)
and of the polling orchestrator (`app.py`: `poll_status`).

External collaborators of the source (the `requests`/`urllib3` transport, the
stdlib JSON decoder, UTF-8 decoding, the wall clock) are modelled as explicit
parameters or small faithful models; everything written in the repository
itself is translated directly.
-/

/-- JSON-like structured values: payloads, header values and decoded bodies. -/
inductive JsonVal where
  | null : JsonVal
  | bool (b : Bool) : JsonVal
  | num (n : Int) : JsonVal
  | str (s : String) : JsonVal
  | arr (xs : List JsonVal) : JsonVal
  | obj (fields : List (String × JsonVal)) : JsonVal

/-- Python truthiness of a structured value (`if x:`): `None`, `False`, `0`,
empty string, empty list and empty dict are falsy. -/
def pyTruthy : JsonVal → Bool
  | JsonVal.null => false
  | JsonVal.bool b => b
  | JsonVal.num n => n != 0
  | JsonVal.str s => s ≠ ""
  | JsonVal.arr xs => !xs.isEmpty
  | JsonVal.obj fs => !fs.isEmpty

/-- Python truthiness of an optional value: a missing key is falsy. -/
def pyTruthyOpt : Option JsonVal → Bool
  | none => false
  | some v => pyTruthy v

/-- ASCII lower-casing of a string, as Python `str.lower()` on ASCII data. -/
def pyLower (s : String) : String :=
  String.mk (s.toList.map Char.toLower)

/-- ASCII upper-casing of a string, as Python `str.upper()` on ASCII data
(used by `_validate_config` for the method name). -/
def pyUpper (s : String) : String :=
  String.mk (s.toList.map Char.toUpper)

/-- Does `needle` occur at the head of `hay`? -/
def matchesAt : List Char → List Char → Bool
  | [], _ => true
  | _ :: _, [] => false
  | a :: as, b :: bs => a = b && matchesAt as bs

/-- Substring occurrence on character lists (Python `needle in hay`). -/
def containsSubAux (needle : List Char) : List Char → Bool
  | [] => matchesAt needle []
  | c :: cs => matchesAt needle (c :: cs) || containsSubAux needle cs

/-- Substring test on strings, Python `needle in hay`. -/
def strContainsSub (needle hay : String) : Bool :=
  containsSubAux needle.toList hay.toList

/-- Does `s` start with `pre`? (Python `str.startswith`.) -/
def strStarts (pre s : String) : Bool :=
  matchesAt pre.toList s.toList

/-- Split a character list at the first colon, returning the parts before and
after it; `none` when no colon occurs. Models `url.find(':')` in `urlparse`. -/
def splitAtColon : List Char → Option (List Char × List Char)
  | [] => none
  | c :: cs =>
    if c = Char.ofNat 58 then some ([], cs)
    else match splitAtColon cs with
      | some (a, b) => some (c :: a, b)
      | none => none

/-- Characters allowed in a URL scheme by `urllib.parse` (letters, digits,
`+`, `-`, `.`). -/
def schemeChar (c : Char) : Bool :=
  c.isAlphanum || c = Char.ofNat 43 || c = Char.ofNat 45 || c = Char.ofNat 46

/-- The two components of a parsed URL that `_validate_config` inspects. -/
structure UrlParts where
  scheme : String
  netloc : String
deriving DecidableEq

/-- Modelled from CPython `urllib.parse.urlparse`, restricted to the two
fields the source reads: the scheme (the lower-cased prefix before the first
colon when it is a well-formed scheme: nonempty, alphabetic first character,
scheme characters throughout) and the network location (the run after a
leading `//` up to the next `/`, `?` or `#`). -/
def urlparse (url : String) : UrlParts :=
  let cs := url.toList
  let (scheme, rest) :=
    match splitAtColon cs with
    | some (pre, post) =>
      match pre with
      | [] => ("", cs)
      | c0 :: _ =>
        if c0.isAlpha && pre.all schemeChar then
          (String.mk (pre.map Char.toLower), post)
        else ("", cs)
    | none => ("", cs)
  let netloc :=
    match rest with
    | c1 :: c2 :: r =>
      if c1 = Char.ofNat 47 && c2 = Char.ofNat 47 then
        String.mk (r.takeWhile (fun c =>
          ¬(c = Char.ofNat 47 ∨ c = Char.ofNat 63 ∨ c = Char.ofNat 35)))
      else ""
    | _ => ""
  ⟨scheme, netloc⟩

/-- A raw configuration map as `APIHandler` receives it: the four recognised
keys plus any unknown extra fields of the dictionary. -/
structure RawConfig where
  endpoint : Option String
  method : Option String
  headers : Option JsonVal
  payload : Option JsonVal
  extra : List (String × JsonVal)

/-- The validated configuration `_validate_config` returns. -/
structure RequestConfig where
  endpoint : String
  method : String
  headers : List (String × JsonVal)
  payload : Option JsonVal

/-- The HTTP methods accepted by `_validate_config`. -/
def allowedMethods : List String := ["GET", "POST", "PUT", "PATCH", "DELETE"]

/-- `APIHandler._validate_config`: endpoint present and truthy; URL parses
with nonempty scheme and netloc; scheme in http/https; method (default GET,
upper-cased) in the allowed set; headers (default empty dict) must be a
dictionary. The two URL errors are re-wrapped by the surrounding
`except Exception` into an `Invalid endpoint URL:` message. -/
def validate_config (c : RawConfig) : Except String RequestConfig :=
  match c.endpoint with
  | none => Except.error "API endpoint is required"
  | some ep =>
    if ep = "" then Except.error "API endpoint is required"
    else if ¬((urlparse ep).scheme ≠ "" ∧ (urlparse ep).netloc ≠ "") then
      Except.error "Invalid endpoint URL: Invalid URL format"
    else if ¬((urlparse ep).scheme = "http" ∨ (urlparse ep).scheme = "https") then
      Except.error "Invalid endpoint URL: URL must use http or https protocol"
    else if ¬(pyUpper (c.method.getD "GET") ∈ allowedMethods) then
      Except.error ("Unsupported HTTP method: " ++ pyUpper (c.method.getD "GET"))
    else
      match c.headers.getD (JsonVal.obj []) with
      | JsonVal.obj fields =>
        Except.ok ⟨ep, pyUpper (c.method.getD "GET"), fields, c.payload⟩
      | _ => Except.error "Headers must be a dictionary"

/-! ## Transport configuration (`APIHandler._create_session`) -/

/-- The retry policy handed to the transport adapter by `_create_session`. -/
structure RetryPolicy where
  total : Nat
  backoff_factor : ℚ
  status_forcelist : List Nat
  allowed_methods : List String

/-- `APIHandler._create_session`: the retry configuration mounted on both the
`http://` and `https://` adapters of the session. -/
def create_session : RetryPolicy :=
  { total := 3
    backoff_factor := 1/2
    status_forcelist := [500, 502, 503, 504]
    allowed_methods := ["GET", "POST", "PUT", "DELETE", "PATCH"] }

/-- The exponential backoff delay sequence a retry policy induces: the delay
before retry `i` is `backoff_factor * 2 ^ i`, for each retry in the budget. -/
def backoffDelays (p : RetryPolicy) : List ℚ :=
  (List.range p.total).map (fun i => p.backoff_factor * 2 ^ i)

/-! ## Streaming assembler (`APIHandler._stream_response`) -/

/-- How the chunked body stream of a live response terminates: normally,
with a truncation (`IncompleteRead`) carrying the leftover bytes delivered
with the fault, or with any other streaming exception. -/
inductive StreamEnd where
  | done : StreamEnd
  | truncated (leftover : List Nat) : StreamEnd
  | failed (msg : String) : StreamEnd

/-- The byte-chunk sequence a live response yields, each chunk a list of byte
values, followed by its termination event. -/
structure BodyStream where
  chunks : List (List Nat)
  ending : StreamEnd

/-- `APIHandler._stream_response`: yields each nonempty chunk; on
`IncompleteRead` yields the nonempty leftover bytes and ends the sequence
(degraded success); any other exception is re-raised to the consumer. -/
def stream_response (s : BodyStream) : Except String (List (List Nat)) :=
  let yielded := s.chunks.filter (fun c => !c.isEmpty)
  match s.ending with
  | StreamEnd.done => Except.ok yielded
  | StreamEnd.truncated leftover =>
    Except.ok (yielded ++ if leftover.isEmpty then [] else [leftover])
  | StreamEnd.failed msg => Except.error msg

/-- The accumulation loop of `_handle_response`: extend `accumulated_data`
with every chunk the stream yields; a streaming exception propagates. -/
def assemble (s : BodyStream) : Except String (List Nat) :=
  (stream_response s).map List.flatten

/-! ## Response handling (`APIHandler._handle_response`) -/

/-- A live HTTP response as `_handle_response` observes it. -/
structure HttpResponse where
  status_code : Nat
  reason : String
  headers : List (String × String)
  url : String
  body : BodyStream

/-- Case-insensitive header lookup with a default, modelling the
`CaseInsensitiveDict.get` of the transport library (`response.headers.get`).
`key` is given lower-cased. -/
def headerGetCI (hs : List (String × String)) (key dflt : String) : String :=
  match hs.find? (fun p => pyLower p.1 = key) with
  | some p => p.2
  | none => dflt

/-- Is there a header with the given lower-cased name? -/
def headerHasCI (hs : List (String × String)) (key : String) : Bool :=
  (hs.find? (fun p => pyLower p.1 = key)).isSome

/-- Modelled from CPython `int(str)` on optionally signed decimal strings
with surrounding whitespace (the error text is abridged). -/
def pyIntParse (s : String) : Except String Int :=
  let cs := (s.toList.dropWhile Char.isWhitespace).reverse
    |>.dropWhile Char.isWhitespace |>.reverse
  let (sign, ds) :=
    match cs with
    | c :: rest =>
      if c = Char.ofNat 45 then ((-1 : Int), rest)
      else if c = Char.ofNat 43 then ((1 : Int), rest)
      else ((1 : Int), cs)
    | [] => ((1 : Int), cs)
  if !ds.isEmpty && ds.all Char.isDigit then
    Except.ok (sign * (ds.foldl (fun a c => a * 10 + ((c.toNat : Int) - 48)) 0))
  else Except.error ("invalid literal for int() with base 10: " ++ s)

/-- `int(response.headers.get("content-length", 0))`: the absent header gives
the integer default 0; a present header value is parsed as an integer, and a
malformed value raises into the surrounding handler. -/
def contentLengthOf (r : HttpResponse) : Except String Int :=
  if headerHasCI r.headers "content-length" then
    pyIntParse (headerGetCI r.headers "content-length" "")
  else Except.ok 0

/-- A decoded body: structured JSON or text. -/
inductive BodyData where
  | json (v : JsonVal) : BodyData
  | text (s : String) : BodyData

/-- The external decoding collaborators of `_handle_response`: the stdlib
JSON decoder (`json.loads` on a byte buffer; `none` models a
`JSONDecodeError`/`UnicodeDecodeError`) and UTF-8 decoding
(`bytes.decode("utf-8")`; `none` models a `UnicodeDecodeError`). -/
structure Decoders where
  jsonLoads : List Nat → Option JsonVal
  utf8Decode : List Nat → Option String

/-- One hexadecimal digit, lower case. -/
def hexDigit (n : Nat) : Char :=
  if n < 10 then Char.ofNat (48 + n) else Char.ofNat (87 + (n - 10))

/-- The escaped form of one byte inside a CPython bytes literal using
quote character `q`. -/
def pyByteEsc (q : Nat) (b : Nat) : String :=
  if b = 92 then String.mk [Char.ofNat 92, Char.ofNat 92]
  else if b = q then String.mk [Char.ofNat 92, Char.ofNat q]
  else if b = 9 then String.mk [Char.ofNat 92, Char.ofNat 116]
  else if b = 10 then String.mk [Char.ofNat 92, Char.ofNat 110]
  else if b = 13 then String.mk [Char.ofNat 92, Char.ofNat 114]
  else if 32 ≤ b ∧ b ≤ 126 then String.mk [Char.ofNat b]
  else String.mk [Char.ofNat 92, Char.ofNat 120, hexDigit (b / 16), hexDigit (b % 16)]

/-- Modelled from CPython `repr` of a `bytes` value: `b` followed by a quoted
escaped rendering; the quote is a single quote unless the bytes contain one
and no double quote. -/
def pyBytesRepr (bs : List Nat) : String :=
  let q := if bs.contains 39 && !bs.contains 34 then 34 else 39
  String.mk [Char.ofNat 98, Char.ofNat q]
    ++ String.join (bs.map (pyByteEsc q))
    ++ String.mk [Char.ofNat q]

/-- Modelled from CPython `str(bytearray(...))`, the fallback value
`_handle_response` stores on a decode failure: the debug rendering
`bytearray(<bytes literal>)`, not the decoded text. -/
def pyBytearrayStr (bs : List Nat) : String :=
  "bytearray(" ++ pyBytesRepr bs ++ ")"

/-- `response.ok` of the transport library: no 4xx/5xx client or server
error status. -/
def respOk (r : HttpResponse) : Bool :=
  r.status_code < 400

/-- The uniform result shape of the pipeline: the full (streamed and decoded)
envelope of `_handle_response`, or a failure envelope. -/
inductive Envelope where
  | full (success : Bool) (status_code : Nat) (status_text : String)
      (headers : List (String × String)) (data : BodyData)
      (url : String) (method : String) (size : Nat) : Envelope
  | failure (status_code : Nat) (error : String) (method : String)
      (url : String) : Envelope

/-- The status code carried by an envelope. -/
def Envelope.statusOf : Envelope → Nat
  | Envelope.full _ sc _ _ _ _ _ _ => sc
  | Envelope.failure sc _ _ _ => sc

/-- The success flag carried by an envelope (a failure envelope carries
`success: False`). -/
def Envelope.successOf : Envelope → Bool
  | Envelope.full s _ _ _ _ _ _ _ => s
  | Envelope.failure _ _ _ _ => false

/-- `APIHandler._handle_response`: read content type and content length,
accumulate the streamed chunks, decode by declared content type with the
non-fatal `str(bytearray)` fallback, and build the envelope; any exception
inside (content-length parse, stream fault) is caught and becomes a failure
envelope carrying the response's own status code. -/
def handle_response (D : Decoders) (cfg : RequestConfig) (r : HttpResponse) :
    Envelope :=
  let content_type := headerGetCI r.headers "content-type" ""
  match contentLengthOf r with
  | Except.error msg =>
    Envelope.failure r.status_code ("Error processing response: " ++ msg)
      cfg.method r.url
  | Except.ok _ =>
    match assemble r.body with
    | Except.error msg =>
      Envelope.failure r.status_code ("Error processing response: " ++ msg)
        cfg.method r.url
    | Except.ok bytes =>
      let data :=
        if strContainsSub "application/json" content_type then
          match D.jsonLoads bytes with
          | some v => BodyData.json v
          | none => BodyData.text (pyBytearrayStr bytes)
        else
          match D.utf8Decode bytes with
          | some s => BodyData.text s
          | none => BodyData.text (pyBytearrayStr bytes)
      Envelope.full (respOk r) r.status_code r.reason r.headers data r.url
        cfg.method bytes.length

/-! ## Request execution (`APIHandler.execute`, `handle_api_request`) -/

/-- Python dict assignment `d[k] = v` on an association list: replace the
value at an existing key, else append the binding. -/
def dictSet (l : List (String × JsonVal)) (k : String) (v : JsonVal) :
    List (String × JsonVal) :=
  if l.any (fun p => p.1 = k) then
    l.map (fun p => if p.1 = k then (k, v) else p)
  else l ++ [(k, v)]

/-- The bearer form of a credential: prefixed with `Bearer ` unless it
already starts so. -/
def bearerize (t : String) : String :=
  if strStarts "Bearer " t then t else "Bearer " ++ t

/-- Header preparation in `execute`: copy the configured headers and, when a
truthy credential is supplied, set the `Authorization` header to its bearer
form. -/
def mergeAuth (headers : List (String × JsonVal)) (auth_token : Option String) :
    List (String × JsonVal) :=
  match auth_token with
  | some t => if t ≠ "" then dictSet headers "Authorization" (JsonVal.str (bearerize t))
      else headers
  | none => headers

/-- The keyword arguments `execute` passes to `session.request`. -/
structure RequestParams where
  url : String
  headers : List (String × JsonVal)
  timeoutConnect : Nat
  timeoutRead : Nat
  stream : Bool
  params : Option JsonVal
  jsonBody : Option JsonVal

/-- Request-parameter assembly in `execute`: base parameters (endpoint URL,
prepared headers, connect/read timeouts 5 and 60, streaming on), then the
payload routed into query `params` for a truthy GET payload, or into the
`json` body for a truthy payload of the other methods. -/
def buildRequestParams (cfg : RequestConfig)
    (headers : List (String × JsonVal)) : RequestParams :=
  let base : RequestParams :=
    ⟨cfg.endpoint, headers, 5, 60, true, none, none⟩
  if cfg.method = "GET" && pyTruthyOpt cfg.payload then
    { base with params := cfg.payload }
  else if (["POST", "PUT", "PATCH", "DELETE"].contains cfg.method)
      && pyTruthyOpt cfg.payload then
    { base with jsonBody := cfg.payload }
  else base

/-- What the transport call `session.request(method, **request_params)` and
the subsequent pipeline raise or return: a live response, a
`requests.exceptions.Timeout`, a `requests.exceptions.ConnectionError`, or
any other exception (carrying its message). -/
inductive HttpOutcome where
  | response (r : HttpResponse) : HttpOutcome
  | timeout : HttpOutcome
  | connError (msg : String) : HttpOutcome
  | otherExc (msg : String) : HttpOutcome

/-- The transport as an oracle: what the network does for a given method and
request parameters. -/
def Transport : Type := String → RequestParams → HttpOutcome

/-- `APIHandler.execute`: prepare headers and request parameters, issue the
streaming request, and handle the response; a `Timeout` is caught into a
failure envelope with local status 408, a `ConnectionError` into local
status 503, and any other exception into local status 500 with the
exception's message. -/
def execute (D : Decoders) (cfg : RequestConfig) (auth_token : Option String)
    (transport : Transport) : Envelope :=
  let headers := mergeAuth cfg.headers auth_token
  let request_params := buildRequestParams cfg headers
  match transport cfg.method request_params with
  | HttpOutcome.response r => handle_response D cfg r
  | HttpOutcome.timeout =>
    Envelope.failure 408 "Request timed out" cfg.method cfg.endpoint
  | HttpOutcome.connError msg =>
    Envelope.failure 503 ("Connection error: " ++ msg) cfg.method cfg.endpoint
  | HttpOutcome.otherExc msg =>
    Envelope.failure 500 msg cfg.method cfg.endpoint

/-- `handle_api_request`: construct the handler (validating the config) and
execute; any exception out of construction is caught into a failure envelope
with status 500, the exception message, and method/url read from the raw
input with defaults `GET` and the empty string. -/
def handle_api_request (raw : RawConfig) (auth_token : Option String)
    (D : Decoders) (transport : Transport) : Envelope :=
  match validate_config raw with
  | Except.error msg =>
    Envelope.failure 500 msg (raw.method.getD "GET") (raw.endpoint.getD "")
  | Except.ok cfg => execute D cfg auth_token transport

/-! ## Poll orchestrator (`app.poll_status`) -/

/-- What one polling tick's request produces: a decoded body whose `expired`
flag is read (absent defaults to false), or an exception from
`execute_api_call`. Either way the tick yields exactly one progress
notification. -/
inductive TickOutcome where
  | ok (expired : Bool) : TickOutcome
  | failed (msg : String) : TickOutcome

/-- Does this tick's outcome end the poll? Only a body whose completion flag
is true does; an error tick is reported and the loop continues. -/
def tickDone : TickOutcome → Bool
  | TickOutcome.ok b => b
  | TickOutcome.failed _ => false

/-- How a poll session concludes. -/
inductive PollOutcome where
  | complete : PollOutcome
  | timedOut : PollOutcome
  | zeroInterval : PollOutcome
deriving DecidableEq

/-- The `while time.time() - start_time < max_duration` loop of
`poll_status`, under the scenario premise that each tick's request takes
negligible time, so the elapsed time is `ticks-so-far * interval` and
`remaining = max_duration - elapsed`. Each iteration performs one tick
(always yielding exactly one notification), returns on a true completion
flag, and otherwise sleeps `interval` before re-checking the budget; when
the budget check fails, `TimeoutError` is raised. Returns the number of
notifications emitted and the conclusion. A zero interval makes the source
loop forever under this premise; the model marks that case instead. -/
def pollLoop (tick : Nat → TickOutcome) (interval : Nat) (remaining idx : Nat) :
    Nat × PollOutcome :=
  if h0 : 0 < remaining then
    if tickDone (tick idx) then (1, PollOutcome.complete)
    else if h1 : 0 < interval then
      let r := pollLoop tick interval (remaining - interval) (idx + 1)
      (r.1 + 1, r.2)
    else (1, PollOutcome.zeroInterval)
  else (0, PollOutcome.timedOut)
termination_by remaining
decreasing_by exact Nat.sub_lt h0 h1

/-- `poll_status`: run the polling loop from a fresh start time with the full
wall-clock budget. -/
def poll_status (tick : Nat → TickOutcome) (max_duration interval : Nat) :
    Nat × PollOutcome :=
  pollLoop tick interval max_duration 0

/-! ## Concrete scenario values used by the theorems below -/

/-- UTF-8 decoding restricted to ASCII byte strings: a correct instance of
the UTF-8 decoding collaborator for the concrete ASCII bodies below. -/
def asciiDecode (bs : List Nat) : Option String :=
  if bs.all (fun b => b < 128) then some (String.mk (bs.map Char.ofNat))
  else none

/-- Decoders for concrete scenarios: JSON parsing fails (the bodies below
are not JSON), UTF-8 decoding is the ASCII decoder. -/
def decNone : Decoders := ⟨fun _ => none, asciiDecode⟩

/-- A plain validated GET configuration. -/
def cfgGet : RequestConfig := ⟨"http://h/z", "GET", [], none⟩

/-- The bytes of the ASCII text `not json`. -/
def bodyNotJson : List Nat := [110, 111, 116, 32, 106, 115, 111, 110]

/-- A 200 response declaring `application/json` whose body is the malformed
JSON text `not json`, streamed in one chunk and ending normally. -/
def respNotJson : HttpResponse :=
  ⟨200, "OK", [("Content-Type", "application/json")], "http://h/z",
    ⟨[bodyNotJson], StreamEnd.done⟩⟩

/-- A 200 response whose body stream raises a non-truncation fault after one
chunk. -/
def respStreamFault : HttpResponse :=
  ⟨200, "OK", [("Content-Type", "text/plain")], "http://h/z",
    ⟨[[104, 105]], StreamEnd.failed "boom"⟩⟩

/-- A raw configuration whose endpoint scheme is `ftp`. -/
def rawFtp : RawConfig := ⟨some "ftp://x.com/a", some "GET", none, none, []⟩

/-- A raw configuration with no endpoint field. -/
def rawNoEndpoint : RawConfig := ⟨none, some "POST", none, none, []⟩

/-- A valid raw configuration carrying one unknown extra field `name`. -/
def rawExtra : RawConfig :=
  ⟨some "https://example.com/a", some "GET", none, none,
    [("name", JsonVal.str "x")]⟩

/-- The validated configuration `rawExtra` produces. -/
def cfgExtra : RequestConfig := ⟨"https://example.com/a", "GET", [], none⟩

/-! ## Theorems -/

/-- Claim C1: for every validated config and optional credential, `execute`
always returns an envelope (it is a total function of the transport
outcome), and the failure envelope's local status code is 408 when the
transport call raised a timeout, 503 (with the `Connection error:` message)
when it raised a connection error, and 500 with the exception's message for
any other exception raised during the pipeline. -/
theorem execute_envelope_classification (D : Decoders) (cfg : RequestConfig)
    (tok : Option String) (transport : Transport) :
    (∃ e : Envelope, execute D cfg tok transport = e)
    ∧ (transport cfg.method (buildRequestParams cfg (mergeAuth cfg.headers tok))
          = HttpOutcome.timeout →
        execute D cfg tok transport
          = Envelope.failure 408 "Request timed out" cfg.method cfg.endpoint)
    ∧ (∀ msg, transport cfg.method (buildRequestParams cfg (mergeAuth cfg.headers tok))
          = HttpOutcome.connError msg →
        execute D cfg tok transport
          = Envelope.failure 503 ("Connection error: " ++ msg) cfg.method cfg.endpoint)
    ∧ (∀ msg, transport cfg.method (buildRequestParams cfg (mergeAuth cfg.headers tok))
          = HttpOutcome.otherExc msg →
        execute D cfg tok transport
          = Envelope.failure 500 msg cfg.method cfg.endpoint) := by
  refine ⟨⟨_, rfl⟩, fun h => ?_, fun msg h => ?_, fun msg h => ?_⟩ <;>
    simp [execute, h]

/-- Witness for C1: a transport that times out yields the 408 failure
envelope on a concrete configuration. -/
theorem execute_envelope_classification_witness :
    execute decNone cfgGet none (fun _ _ => HttpOutcome.timeout)
      = Envelope.failure 408 "Request timed out" "GET" "http://h/z" :=
  (execute_envelope_classification decNone cfgGet none
    (fun _ _ => HttpOutcome.timeout)).2.1 rfl

/-- Claim C5: with `max_duration = 10` and `interval = 5` against ticks that
never report completion, exactly 2 ticks (and their 2 notifications) occur —
at elapsed times 0 and 5 — and the session then times out; the tick at
elapsed time 10 is not started. -/
theorem poll_two_ticks_then_timeout (tick : Nat → TickOutcome)
    (h : ∀ i, tickDone (tick i) = false) :
    poll_status tick 10 5 = (2, PollOutcome.timedOut) := by
  unfold poll_status
  rw [pollLoop]; norm_num [h 0]
  rw [pollLoop]; norm_num [h 1]
  rw [pollLoop]; norm_num

/-- Witness for C5: ticks whose responses never carry the completion flag. -/
theorem poll_two_ticks_then_timeout_witness :
    poll_status (fun _ => TickOutcome.ok false) 10 5
      = (2, PollOutcome.timedOut) :=
  poll_two_ticks_then_timeout (fun _ => TickOutcome.ok false) (fun _ => rfl)

/-- Claim C6: when the first tick's response carries the completion flag set
to true (and the wall-clock budget admits a first tick), exactly one
progress notification is emitted and the orchestration returns normally —
no further notifications, no `PollTimeout`. -/
theorem poll_completes_on_first_tick (tick : Nat → TickOutcome)
    (max_duration interval : Nat) (hd : 0 < max_duration)
    (hflag : tick 0 = TickOutcome.ok true) :
    poll_status tick max_duration interval = (1, PollOutcome.complete) := by
  unfold poll_status
  rw [pollLoop]
  simp [hd, hflag, tickDone]

/-- Witness for C6: the default budget and interval, completion on tick 1. -/
theorem poll_completes_on_first_tick_witness :
    poll_status (fun _ => TickOutcome.ok true) 120 5
      = (1, PollOutcome.complete) :=
  poll_completes_on_first_tick (fun _ => TickOutcome.ok true) 120 5
    (by norm_num) rfl

/-- Claim C7: the session's retry policy retries on HTTP statuses
500/502/503/504 with a budget of 3 and exponential backoff seeded at 0.5
time-units (delays 0.5, 1.0, 2.0), uniformly for the five supported methods
GET, POST, PUT, PATCH, DELETE. -/
theorem create_session_retry_policy :
    create_session.total = 3
    ∧ create_session.backoff_factor = 1/2
    ∧ (∀ s, s ∈ create_session.status_forcelist
        ↔ s ∈ ([500, 502, 503, 504] : List Nat))
    ∧ (∀ m, m ∈ create_session.allowed_methods ↔ m ∈ allowedMethods)
    ∧ backoffDelays create_session = [1/2, 1, 2] := by
  refine ⟨rfl, rfl, fun s => Iff.rfl, fun m => ?_, ?_⟩
  · simp [create_session, allowedMethods]
    tauto
  · norm_num [backoffDelays, create_session, List.range_succ]

/-- Claim C9: a GET invocation whose payload is the empty mapping and one
with no payload at all build identical request parameters — in particular
both carry no query parameters — and execute identically against any
transport. -/
theorem get_empty_payload_idempotent (ep : String)
    (cfgHeaders hdrs : List (String × JsonVal)) :
    buildRequestParams ⟨ep, "GET", cfgHeaders, some (JsonVal.obj [])⟩ hdrs
      = buildRequestParams ⟨ep, "GET", cfgHeaders, none⟩ hdrs
    ∧ (buildRequestParams ⟨ep, "GET", cfgHeaders, some (JsonVal.obj [])⟩ hdrs).params
      = none
    ∧ ∀ (D : Decoders) (tok : Option String) (transport : Transport),
        execute D ⟨ep, "GET", cfgHeaders, some (JsonVal.obj [])⟩ tok transport
          = execute D ⟨ep, "GET", cfgHeaders, none⟩ tok transport :=
  ⟨rfl, rfl, fun _ _ _ => rfl⟩

/-- Any successfully validated configuration has a present nonempty endpoint
whose scheme is http or https, an allowed upper-cased method, dictionary
headers, and a result built from exactly the four recognised fields. -/
theorem validate_ok_shape (c : RawConfig) (rc : RequestConfig)
    (h : validate_config c = Except.ok rc) :
    ∃ ep fields, c.endpoint = some ep ∧ ep ≠ ""
      ∧ ((urlparse ep).scheme = "http" ∨ (urlparse ep).scheme = "https")
      ∧ pyUpper (c.method.getD "GET") ∈ allowedMethods
      ∧ c.headers.getD (JsonVal.obj []) = JsonVal.obj fields
      ∧ rc = ⟨ep, pyUpper (c.method.getD "GET"), fields, c.payload⟩ := by
  unfold validate_config at h
  split at h
  · exact absurd h (by simp)
  rename_i ep heq
  split at h
  · exact absurd h (by simp)
  rename_i hne
  split at h
  · exact absurd h (by simp)
  rename_i hfmt
  split at h
  · exact absurd h (by simp)
  rename_i hsch
  split at h
  · exact absurd h (by simp)
  rename_i hm
  split at h
  · rename_i fields hobj
    injection h with hrc
    exact ⟨ep, fields, heq, hne, not_not.mp hsch, not_not.mp hm, hobj, hrc.symm⟩
  · exact absurd h (by simp)

/-- Claim C3: for every raw configuration missing the endpoint field (or
with an empty one), or whose endpoint's scheme is not http or https, or
whose (defaulted, upper-cased) method is not in the allowed set, validation
fails with an error, and the pipeline result is independent of the
transport — no transport call is observable (no network I/O occurs). -/
theorem invalid_config_rejected (c : RawConfig)
    (hbad : c.endpoint = none ∨ c.endpoint = some ""
      ∨ (∃ ep, c.endpoint = some ep
          ∧ ¬((urlparse ep).scheme = "http" ∨ (urlparse ep).scheme = "https"))
      ∨ pyUpper (c.method.getD "GET") ∉ allowedMethods) :
    (∃ msg, validate_config c = Except.error msg)
    ∧ ∀ (tok : Option String) (D : Decoders) (t₁ t₂ : Transport),
        handle_api_request c tok D t₁ = handle_api_request c tok D t₂ := by
  have herr : ∃ msg, validate_config c = Except.error msg := by
    cases hv : validate_config c with
    | error msg => exact ⟨msg, rfl⟩
    | ok rc =>
      obtain ⟨ep, fields, hep, hne, hsch, hm, -, -⟩ := validate_ok_shape c rc hv
      rcases hbad with h | h | ⟨ep', hep', hsch'⟩ | h
      · rw [hep] at h; exact absurd h (by simp)
      · rw [hep] at h
        exact absurd (Option.some.inj h) hne
      · rw [hep] at hep'
        exact absurd (Option.some.inj hep' ▸ hsch) hsch'
      · exact absurd hm h
  obtain ⟨msg, hmsg⟩ := herr
  exact ⟨⟨msg, hmsg⟩, fun tok D t₁ t₂ => by simp [handle_api_request, hmsg]⟩

/-- Witness for C3: a config whose endpoint scheme is `ftp`. -/
theorem invalid_config_rejected_witness :
    (∃ msg, validate_config rawFtp = Except.error msg)
    ∧ ∀ (tok : Option String) (D : Decoders) (t₁ t₂ : Transport),
        handle_api_request rawFtp tok D t₁ = handle_api_request rawFtp tok D t₂ :=
  invalid_config_rejected rawFtp
    (Or.inr (Or.inr (Or.inl ⟨"ftp://x.com/a", rfl, by decide⟩)))

/-- Claim C10: `handle_api_request` always returns an envelope (it is a
total function), and a raw configuration that fails validation yields a
failure envelope with success=false, status 500, the validation error
message, and the method (default GET) and url (default empty) taken from
the raw input. -/
theorem handle_api_request_total (c : RawConfig) (tok : Option String)
    (D : Decoders) (t : Transport) :
    (∃ e : Envelope, handle_api_request c tok D t = e)
    ∧ ∀ msg, validate_config c = Except.error msg →
        handle_api_request c tok D t
          = Envelope.failure 500 msg (c.method.getD "GET") (c.endpoint.getD "")
        ∧ (handle_api_request c tok D t).successOf = false := by
  refine ⟨⟨_, rfl⟩, fun msg h => ?_⟩
  have he : handle_api_request c tok D t
      = Envelope.failure 500 msg (c.method.getD "GET") (c.endpoint.getD "") := by
    simp [handle_api_request, h]
  exact ⟨he, by rw [he]; rfl⟩

/-- Witness for C10: a raw config with no endpoint and method POST. -/
theorem handle_api_request_total_witness :
    handle_api_request rawNoEndpoint none decNone (fun _ _ => HttpOutcome.timeout)
      = Envelope.failure 500 "API endpoint is required" "POST" ""
    ∧ (handle_api_request rawNoEndpoint none decNone
        (fun _ _ => HttpOutcome.timeout)).successOf = false :=
  (handle_api_request_total rawNoEndpoint none decNone
    (fun _ _ => HttpOutcome.timeout)).2 "API endpoint is required" rfl

/-- Claim C2 counterexample: a successful (status 200) execution declaring
`application/json` whose body is the malformed JSON text `not json` yields
success=true, but its data is the debug rendering of the byte buffer
(`str(bytearray(...))`), which differs from the bytes interpreted as text
(here recovered by a correct ASCII/UTF-8 decode). -/
theorem json_decode_fallback_counterexample :
    asciiDecode bodyNotJson = some "not json"
    ∧ decNone.jsonLoads bodyNotJson = none
    ∧ execute decNone cfgGet none (fun _ _ => HttpOutcome.response respNotJson)
        = Envelope.full true 200 "OK" [("Content-Type", "application/json")]
            (BodyData.text (pyBytearrayStr bodyNotJson)) "http://h/z" "GET" 8
    ∧ pyBytearrayStr bodyNotJson ≠ "not json" :=
  ⟨rfl, rfl, rfl, by decide⟩

/-- Claim C2 (amended): for every execution whose HTTP status indicates
success, whose declared content type contains `application/json`, and whose
assembled body fails to parse as JSON, the envelope has success=true and its
data is the `str(bytearray(...))` rendering of the body bytes — the debug
form of the buffer, not the bytes decoded as text. -/
theorem json_decode_fallback (D : Decoders) (cfg : RequestConfig)
    (r : HttpResponse) (bytes : List Nat)
    (hct : strContainsSub "application/json"
        (headerGetCI r.headers "content-type" "") = true)
    (hcl : ∃ n, contentLengthOf r = Except.ok n)
    (hb : assemble r.body = Except.ok bytes)
    (hjson : D.jsonLoads bytes = none)
    (hok : r.status_code < 400) :
    handle_response D cfg r
      = Envelope.full true r.status_code r.reason r.headers
          (BodyData.text (pyBytearrayStr bytes)) r.url cfg.method
          bytes.length := by
  obtain ⟨n, hn⟩ := hcl
  unfold handle_response
  rw [hn, hb]
  simp [hct, hjson, respOk, hok]

/-- Witness for the amended C2 on the `not json` scenario. -/
theorem json_decode_fallback_witness :
    handle_response decNone cfgGet respNotJson
      = Envelope.full true 200 "OK" [("Content-Type", "application/json")]
          (BodyData.text (pyBytearrayStr bodyNotJson)) "http://h/z" "GET" 8 :=
  json_decode_fallback decNone cfgGet respNotJson bodyNotJson rfl ⟨0, rfl⟩
    rfl rfl (by decide)

/-- Claim C4 counterexample: a streaming fault (other than truncation) on a
status-200 response is surfaced as a failure envelope whose status code is
200 — the response's own HTTP status — not the local value 500. -/
theorem stream_fault_envelope_counterexample :
    respStreamFault.body.ending = StreamEnd.failed "boom"
    ∧ execute decNone cfgGet none
        (fun _ _ => HttpOutcome.response respStreamFault)
        = Envelope.failure 200 "Error processing response: boom" "GET" "http://h/z"
    ∧ (execute decNone cfgGet none
        (fun _ _ => HttpOutcome.response respStreamFault)).statusOf = 200
    ∧ (200 : Nat) ≠ 500 :=
  ⟨rfl, rfl, rfl, by decide⟩

/-- Claim C4 (amended): every streaming failure during body assembly other
than a truncation is surfaced as a failure envelope whose status code is the
HTTP response's own status code, with the error message prefixed
`Error processing response:`. -/
theorem stream_fault_envelope (D : Decoders) (cfg : RequestConfig)
    (r : HttpResponse) (msg : String)
    (hcl : ∃ n, contentLengthOf r = Except.ok n)
    (hfail : r.body.ending = StreamEnd.failed msg) :
    handle_response D cfg r
      = Envelope.failure r.status_code ("Error processing response: " ++ msg)
          cfg.method r.url := by
  obtain ⟨n, hn⟩ := hcl
  have hb : assemble r.body = Except.error msg := by
    simp [assemble, stream_response, hfail, Except.map]
  unfold handle_response
  rw [hn, hb]

/-- Witness for the amended C4 on the `boom` stream-fault scenario. -/
theorem stream_fault_envelope_witness :
    handle_response decNone cfgGet respStreamFault
      = Envelope.failure 200 "Error processing response: boom" "GET" "http://h/z" :=
  stream_fault_envelope decNone cfgGet respStreamFault "boom" ⟨0, rfl⟩ rfl

/-- Claim C8 counterexample: a validated configuration carrying the unknown
extra field `name` produces a RequestConfig whose payload is `none` — the
extra field is not passed through into the payload (which would have to
carry it). -/
theorem extra_fields_discarded_counterexample :
    rawExtra.extra = [("name", JsonVal.str "x")]
    ∧ validate_config rawExtra = Except.ok cfgExtra
    ∧ cfgExtra.payload = none
    ∧ cfgExtra.payload ≠ some (JsonVal.obj rawExtra.extra) :=
  ⟨rfl, rfl, rfl, by simp [cfgExtra]⟩

/-- Claim C8 (amended): unknown/extra fields are discarded by validation:
the validation result is independent of them, and the payload of a
successfully validated configuration is exactly the raw `payload` field. -/
theorem extra_fields_discarded (c : RawConfig)
    (e : List (String × JsonVal)) :
    validate_config { c with extra := e } = validate_config c
    ∧ ∀ rc, validate_config c = Except.ok rc → rc.payload = c.payload := by
  refine ⟨rfl, fun rc h => ?_⟩
  obtain ⟨ep, fields, -, -, -, -, -, hrc⟩ := validate_ok_shape c rc h
  rw [hrc]

/-- Witness for the amended C8 on the `name` extra-field scenario. -/
theorem extra_fields_discarded_witness :
    validate_config { rawExtra with extra := [] } = validate_config rawExtra
    ∧ cfgExtra.payload = rawExtra.payload :=
  ⟨(extra_fields_discarded rawExtra []).1,
    (extra_fields_discarded rawExtra []).2 cfgExtra rfl⟩
